import Mathlib

/-!
Verification development for the data-access layer of a film-festival
submission portal. The embedding below follows the TypeScript services:
the scoring/comments service (field mapping between the application score
shape and the persisted score shape, the three-tier fallback query for
comments, the scoring write and edit paths) and the feature-film service
(legacy-to-enhanced record conversion, crew extraction and the guest
subcollection synchronisation on create/update).

Conventions of the embedding:
* JavaScript numbers appearing in score fields are modelled as `Int`;
  fields that can be absent at runtime (the mappers are typed `any` in
  the source) are `Option Int` / `Option String`.
* The JavaScript truthiness fallback `x || d` on a possibly absent
  number is `jsOrElse`, on a possibly absent string `jsOrStr`:
  `undefined`, `0` and `""` are falsy, everything else passes through.
  Object-valued fields (dates, arrays) are always truthy when present,
  so `x || d` on them is `Option.getD`.
* Store timestamps (`serverTimestamp()`, `new Date()`) are `Nat`
  parameters called `now`.
-/

namespace Cifan

/-- JS `x || d` for a possibly absent number field: `undefined` and `0`
fall back to the default. -/
def jsOrElse (a : Option Int) (d : Int) : Int :=
  match a with
  | none => d
  | some v => if v = 0 then d else v

/-- JS `x || d` for a possibly absent string field: `undefined` and the
empty string fall back to the default. -/
def jsOrStr (a : Option String) (d : String) : String :=
  match a with
  | none => d
  | some s => if s = "" then d else s

/-- Runtime shape of the `scores` argument reaching
`mapAppScoresToDatabase` (the mapper is typed `any`, so every field can
be absent). -/
structure AppScoresInput where
  technical : Option Int
  story : Option Int
  creativity : Option Int
  chiangmai : Option Int
  overall : Option Int
  totalScore : Option Int
deriving Repr, DecidableEq

/-- Raw persisted score object as read back from the document store:
any field can be missing, and a stray application-shaped `overall`
field can be present next to (or instead of) `humanEffort`. -/
structure DbScoresRaw where
  technical : Option Int
  story : Option Int
  creativity : Option Int
  chiangmai : Option Int
  humanEffort : Option Int
  overall : Option Int
  totalScore : Option Int
deriving Repr, DecidableEq

/-- Score object produced by `mapAppScoresToDatabase` and written to the
store: all six persisted fields are present. -/
structure DbScoresWrite where
  technical : Int
  story : Int
  creativity : Int
  chiangmai : Int
  humanEffort : Int
  totalScore : Int
deriving Repr, DecidableEq

/-- Application-view score object produced by `mapDatabaseScoresToApp`:
all six application fields are present. -/
structure AppScoresView where
  technical : Int
  story : Int
  creativity : Int
  chiangmai : Int
  overall : Int
  totalScore : Int
deriving Repr, DecidableEq

/-- Source `mapAppScoresToDatabase` (shortFilmCommentsService): each
field is `appScores.f || 0`; the application `overall` is renamed to the
persisted `humanEffort`; `totalScore` is `appScores.totalScore || 0`. -/
def mapAppScoresToDatabase (appScores : AppScoresInput) : DbScoresWrite :=
  { technical := jsOrElse appScores.technical 0
    story := jsOrElse appScores.story 0
    creativity := jsOrElse appScores.creativity 0
    chiangmai := jsOrElse appScores.chiangmai 0
    humanEffort := jsOrElse appScores.overall 0
    totalScore := jsOrElse appScores.totalScore 0 }

/-- Source `mapDatabaseScoresToApp` (shortFilmCommentsService): a null
or absent score object maps to `undefined`; otherwise each field is
`dbScores.f || 0` and the application `overall` is
`dbScores.humanEffort || dbScores.overall || 0`. -/
def mapDatabaseScoresToApp (dbScores : Option DbScoresRaw) : Option AppScoresView :=
  match dbScores with
  | none => none
  | some d => some
      { technical := jsOrElse d.technical 0
        story := jsOrElse d.story 0
        creativity := jsOrElse d.creativity 0
        chiangmai := jsOrElse d.chiangmai 0
        overall := jsOrElse d.humanEffort (jsOrElse d.overall 0)
        totalScore := jsOrElse d.totalScore 0 }

/-- Shape of a `DbScoresWrite` once stored and read back raw: exactly
the six written fields are present, there is no stray `overall` field. -/
def DbScoresWrite.toRaw (w : DbScoresWrite) : DbScoresRaw :=
  { technical := some w.technical
    story := some w.story
    creativity := some w.creativity
    chiangmai := some w.chiangmai
    humanEffort := some w.humanEffort
    overall := none
    totalScore := some w.totalScore }

/-- Embedding of a fully populated application score record into the
runtime argument shape (all fields present). -/
def AppScoresView.toInput (x : AppScoresView) : AppScoresInput :=
  { technical := some x.technical
    story := some x.story
    creativity := some x.creativity
    chiangmai := some x.chiangmai
    overall := some x.overall
    totalScore := some x.totalScore }

/-- Reading rule for the application `overall` field as the claim about
`mapDatabaseScoresToApp` states it: the persisted `humanEffort` when
present and non-zero, otherwise the stray `overall` when present and
non-zero, otherwise `0`. -/
def overallReadFallback (ov : Option Int) : Int :=
  match ov with
  | none => 0
  | some w => if w ≠ 0 then w else 0

/-- Reading rule for `overall`, first component: see
`overallReadFallback`. -/
def overallReadRule (hE ov : Option Int) : Int :=
  match hE with
  | none => overallReadFallback ov
  | some v => if v ≠ 0 then v else overallReadFallback ov

/-- Comment document as stored in the `ShortFilmComments` subcollection.
String fields that the source reads with a truthiness guard are plain
strings here, with the empty string standing for an absent field, which
matches the guards `!data.adminId`, `data.adminEmail || ''` and so on.
`createdAt` is the server timestamp stamped on every write. -/
structure CommentDoc where
  id : String
  submissionId : String
  adminId : String
  adminName : String
  adminEmail : String
  content : String
  type : String
  scores : Option DbScoresRaw
  createdAt : Nat
  updatedAt : Option Nat
  isEdited : Bool
  isDeleted : Bool
deriving Repr, DecidableEq

/-- Application-side comment produced by `getComments` and the
subscription callback (interface `ShortFilmComment`). -/
structure ShortFilmComment where
  id : String
  submissionId : String
  adminId : String
  adminName : String
  adminEmail : String
  content : String
  type : String
  scores : Option AppScoresView
  createdAt : Nat
  updatedAt : Option Nat
  isEdited : Bool
  isDeleted : Bool
deriving Repr, DecidableEq

/-- Source `addScoringComment`: builds the stored comment document for a
scoring comment. `content` is `content || ''`, the scores are mapped to
the persisted shape with `mapAppScoresToDatabase`, `createdAt` is the
server timestamp, `isEdited` and `isDeleted` start false. (`docId` is the
store-assigned document id returned by `addDoc`.) -/
def addScoringComment (submissionId adminId adminName adminEmail : String)
    (scores : AppScoresInput) (content : Option String)
    (docId : String) (now : Nat) : CommentDoc :=
  { id := docId
    submissionId := submissionId
    adminId := adminId
    adminName := adminName
    adminEmail := adminEmail
    content := content.getD ""
    type := "scoring"
    scores := some (mapAppScoresToDatabase scores).toRaw
    createdAt := now
    updatedAt := none
    isEdited := false
    isDeleted := false }

/-- Conversion of one fetched document into a `ShortFilmComment`, as the
per-document body of `getComments` does it: `data.submissionId ||
submissionId`, scores mapped with `mapDatabaseScoresToApp`, boolean
fields defaulted with `|| false`. -/
def docToComment (submissionId : String) (d : CommentDoc) : ShortFilmComment :=
  { id := d.id
    submissionId := if d.submissionId = "" then submissionId else d.submissionId
    adminId := d.adminId
    adminName := d.adminName
    adminEmail := d.adminEmail
    content := d.content
    type := d.type
    scores := mapDatabaseScoresToApp d.scores
    createdAt := d.createdAt
    updatedAt := d.updatedAt
    isEdited := d.isEdited
    isDeleted := d.isDeleted }

/-- Stable insertion (descending by `key`) of one element into a list:
the element goes in front of the first entry whose key is not larger.
This is the position a stable sort with comparator
`(a, b) => key(b) - key(a)` assigns. -/
def insertDescBy {α : Type} (key : α → Nat) (x : α) : List α → List α
  | [] => [x]
  | y :: ys => if key y ≤ key x then x :: y :: ys else y :: insertDescBy key x ys

/-- Stable sort, descending by `key`: the semantics of JavaScript
`list.sort((a, b) => b.key - a.key)` (`Array.prototype.sort` is stable). -/
def sortDescBy {α : Type} (key : α → Nat) : List α → List α
  | [] => []
  | x :: xs => insertDescBy key x (sortDescBy key xs)

/-- Sort key used by the client-side sort in `getComments`:
`b.createdAt.getTime() - a.createdAt.getTime()`. -/
def commentKey (c : ShortFilmComment) : Nat := c.createdAt

/-- Sort key of the server-side `orderBy('createdAt', 'desc')` clause on
raw documents. -/
def docKey (d : CommentDoc) : Nat := d.createdAt

/-- The three query tiers of `getComments` and `subscribeToComments`. -/
inductive QueryStrategy
  | filtered
  | simple
  | unfiltered
deriving Repr, DecidableEq

/-- Per-document processing body of the `snapshot.docs.forEach` loop in
`getComments`: skip soft-deleted records when the unfiltered tier was
used, skip records missing `adminId`, `adminName` or `type`, otherwise
convert. -/
def docFilterFun (strategy : QueryStrategy) (submissionId : String)
    (d : CommentDoc) : Option ShortFilmComment :=
  if strategy = QueryStrategy.unfiltered ∧ d.isDeleted = true then none
  else if d.adminId = "" ∨ d.adminName = "" ∨ d.type = "" then none
  else some (docToComment submissionId d)

/-- Processing `getComments` applies to a successful snapshot: the empty
snapshot short-circuits to `[]`, each document runs through
`docFilterFun`, and the simple and unfiltered tiers additionally sort
client-side by `createdAt` descending. -/
def processSnapshot (strategy : QueryStrategy) (submissionId : String)
    (docs : List CommentDoc) : List ShortFilmComment :=
  if docs.isEmpty then []
  else
    let comments := docs.filterMap (docFilterFun strategy submissionId)
    if strategy = QueryStrategy.unfiltered ∨ strategy = QueryStrategy.simple then
      sortDescBy commentKey comments
    else comments

/-- Capability interface of the document store as `getComments` sees it:
each of the three queries either yields a snapshot (a list of documents
in the order the store returns them) or fails. -/
structure CommentsStore where
  filteredQuery : Except String (List CommentDoc)
  simpleQuery : Except String (List CommentDoc)
  unfilteredFetch : Except String (List CommentDoc)

/-- Source `getComments`: empty submission id returns `[]`; otherwise
tier 1 (`isDeleted == false` plus `orderBy createdAt desc`), on failure
tier 2 (`isDeleted == false` only), on failure tier 3 (unfiltered
fetch), on failure `[]`; each successful snapshot is processed with
`processSnapshot` for the tier that succeeded. -/
def getComments (submissionId : String) (store : CommentsStore) :
    List ShortFilmComment :=
  if submissionId = "" then []
  else
    match store.filteredQuery with
    | .ok docs => processSnapshot QueryStrategy.filtered submissionId docs
    | .error _ =>
      match store.simpleQuery with
      | .ok docs => processSnapshot QueryStrategy.simple submissionId docs
      | .error _ =>
        match store.unfilteredFetch with
        | .ok docs => processSnapshot QueryStrategy.unfiltered submissionId docs
        | .error _ => []

/-- Server-side filter of the `where('isDeleted', '==', false)` clause. -/
def notDeleted (d : CommentDoc) : Bool := !d.isDeleted

/-- Store whose composite (filter plus order) query works: tier 1
returns the non-deleted documents sorted by `createdAt` descending. -/
def compositeStore (docs : List CommentDoc) : CommentsStore :=
  { filteredQuery := .ok (sortDescBy docKey (docs.filter notDeleted))
    simpleQuery := .ok (docs.filter notDeleted)
    unfilteredFetch := .ok docs }

/-- Store that rejects the composite query but accepts the simple
filter query. -/
def filterOnlyStore (docs : List CommentDoc) : CommentsStore :=
  { filteredQuery := .error "missing composite index"
    simpleQuery := .ok (docs.filter notDeleted)
    unfilteredFetch := .ok docs }

/-- Store that accepts only unfiltered fetches. -/
def unfilteredOnlyStore (docs : List CommentDoc) : CommentsStore :=
  { filteredQuery := .error "missing composite index"
    simpleQuery := .error "filter query rejected"
    unfilteredFetch := .ok docs }

/-- One entry of the `editHistory` list appended by
`updateScoringComment`. -/
structure EditEntry where
  editedAt : Nat
  previousContent : String
  previousScores : Option DbScoresRaw
  editedBy : String
deriving Repr, DecidableEq

/-- The slice of a stored scoring-comment document that
`updateScoringComment` reads and rewrites: `content`, `scores`,
`updatedAt`, `isEdited` and `editHistory` (an absent `editHistory`
field is read as `[]` by `currentData.editHistory || []`, so it is
modelled as a plain list). The untouched identity fields and the
metadata bag are not modelled; no claim observes them. -/
structure StoredComment where
  content : String
  scores : Option DbScoresRaw
  updatedAt : Option Nat
  isEdited : Bool
  editHistory : List EditEntry
deriving Repr, DecidableEq

/-- Rendering of a possibly absent number inside a JS template string:
`undefined` prints as the text `undefined`. -/
def jsNumStr (o : Option Int) : String :=
  match o with
  | none => "undefined"
  | some v => toString v

/-- Auto-generated score breakdown text used by `updateScoringComment`
when the caller supplies an empty comment text. -/
def scoreBreakdownText (scores : AppScoresInput) : String :=
  "Score Assessment (Updated): " ++ jsNumStr scores.totalScore ++ "/50 points\n" ++
  "• Technical Quality: " ++ jsNumStr scores.technical ++ "/10\n" ++
  "• Story & Narrative: " ++ jsNumStr scores.story ++ "/10\n" ++
  "• Creativity & Originality: " ++ jsNumStr scores.creativity ++ "/10\n" ++
  "• Connection to Chiang Mai: " ++ jsNumStr scores.chiangmai ++ "/10\n" ++
  "• Overall Impact: " ++ jsNumStr scores.overall ++ "/10"

/-- Source `updateScoringComment`: fetches the addressed document
(`current` is the result of that lookup), fails with a not-found error
when it does not exist, otherwise writes the trimmed caller comment (or
the generated breakdown when it trims to empty), the mapped scores,
`isEdited = true`, and appends one entry holding the previous content,
previous scores and the editor to `editHistory`. -/
def updateScoringComment (current : Option StoredComment)
    (scores : AppScoresInput) (comments : String) (editedBy : String)
    (now : Nat) : Except String StoredComment :=
  match current with
  | none => .error "Comment not found"
  | some currentData =>
    let dbScores := mapAppScoresToDatabase scores
    let content := if comments.trim = "" then scoreBreakdownText scores else comments.trim
    .ok
      { content := content
        scores := some dbScores.toRaw
        updatedAt := some now
        isEdited := true
        editHistory := currentData.editHistory ++
          [{ editedAt := now
             previousContent := currentData.content
             previousScores := currentData.scores
             editedBy := editedBy }] }

/-- Input of one `updateScoringComment` call in a sequence of edits. -/
structure ScoreUpdate where
  scores : AppScoresInput
  comments : String
  editedBy : String
  now : Nat
deriving Repr, DecidableEq

/-- One successful `updateScoringComment` call on an existing document
(the lookup always succeeds, so the error branch is unreachable). -/
def applyScoreUpdate (st : StoredComment) (u : ScoreUpdate) : StoredComment :=
  match updateScoringComment (some st) u.scores u.comments u.editedBy u.now with
  | .ok st2 => st2
  | .error _ => st

/-- A sequence of successful `updateScoringComment` calls applied in
order to one existing document. -/
def applyScoreUpdates (st : StoredComment) : List ScoreUpdate → StoredComment
  | [] => st
  | u :: us => applyScoreUpdates (applyScoreUpdate st u) us

/-- The edit-history entries generated by a sequence of updates: entry
`i` snapshots the document state right before update `i` is applied. -/
def editTrace (st : StoredComment) : List ScoreUpdate → List EditEntry
  | [] => []
  | u :: us =>
    { editedAt := u.now
      previousContent := st.content
      previousScores := st.scores
      editedBy := u.editedBy } :: editTrace (applyScoreUpdate st u) us

/-- Guest entry as supplied by the film form (`Guest` objects from the
GuestManagement component); every field but the name can be absent. -/
structure Guest where
  name : String
  contact : Option String
  role : Option String
  otherRole : Option String
  remarks : Option String
deriving Repr, DecidableEq

/-- Crew-member record in the shape `createMultipleGuests` expects, as
built by `extractCrewMembersFromFilmData`. -/
structure CrewMemberRecord where
  name : String
  contact : String
  role : String
  otherRole : Option String
  remarks : String
deriving Repr, DecidableEq

/-- The fields of `FeatureFilmData` that the crew extraction and guest
synchronisation read. The remaining payload fields only flow into the
primary document write, which no claim observes field by field. -/
structure FeatureFilmData where
  guests : Option (List Guest)
  director : Option String
  producer : Option String
  mainActors : Option String
deriving Repr, DecidableEq

/-- Guest-to-crew mapping inside the priority-1 branch of
`extractCrewMembersFromFilmData`: entries whose name is missing or
trims to empty are dropped; `contact` and `remarks` are
`field?.trim() || ''`; `role` defaults to `Guest`; `otherRole` is kept
(trimmed) only when the raw role is exactly `Other`. -/
def mapGuestToCrewMember (guest : Guest) : Option CrewMemberRecord :=
  if guest.name.trim = "" then none
  else some
    { name := guest.name.trim
      contact := (guest.contact.getD "").trim
      role := jsOrStr guest.role "Guest"
      otherRole := if guest.role = some "Other" then guest.otherRole.map String.trim else none
      remarks := (guest.remarks.getD "").trim }

/-- Priority-2 branch of `extractCrewMembersFromFilmData`: a Director
entry from a non-blank `director` field, a Producer entry from a
non-blank `producer` field, and one Actor entry per non-blank
comma-separated name in `mainActors`. -/
def extractFromBasicFields (filmData : FeatureFilmData) : List CrewMemberRecord :=
  (match filmData.director with
   | none => []
   | some d =>
     if d.trim = "" then []
     else [{ name := d.trim, contact := "", role := "Director", otherRole := none, remarks := "" }]) ++
  (match filmData.producer with
   | none => []
   | some p =>
     if p.trim = "" then []
     else [{ name := p.trim, contact := "", role := "Producer", otherRole := none, remarks := "" }]) ++
  (match filmData.mainActors with
   | none => []
   | some s =>
     if s.trim = "" then []
     else ((s.splitOn ",").map String.trim).filterMap fun actor =>
       if actor = "" then none
       else some { name := actor, contact := "", role := "Actor", otherRole := none, remarks := "" })

/-- Source `extractCrewMembersFromFilmData`: when the caller supplied a
non-empty guest list it is used (and returned early, even when every
entry is dropped for a blank name); otherwise the flat
director/producer/mainActors fields are mined. -/
def extractCrewMembersFromFilmData (filmData : FeatureFilmData) : List CrewMemberRecord :=
  match filmData.guests with
  | some gs =>
    if gs.length > 0 then gs.filterMap mapGuestToCrewMember
    else extractFromBasicFields filmData
  | none => extractFromBasicFields filmData

/-- Result shape of the film service calls (the `data` payload is not
modelled; the claims only observe `success` and the presence of an
error). -/
structure FilmServiceResult where
  success : Bool
  error : Option String
deriving Repr, DecidableEq

/-- Store behaviour injected into one `updateFeatureFilm` call: whether
the primary `updateDoc`, the `deleteAllGuests` sweep and the
`createMultipleGuests` write succeed. -/
structure UpdateFilmEnv where
  primaryUpdateOk : Bool
  deleteGuestsOk : Bool
  createGuestsOk : Bool
deriving Repr, DecidableEq

/-- Store behaviour injected into one `createFeatureFilm` call. -/
structure CreateFilmEnv where
  addDocOk : Bool
  createGuestsOk : Bool
deriving Repr, DecidableEq

/-- Source `updateFeatureFilm`, restricted to the observables of the
claims: the call result and the guest subcollection of the film
(`guestSub`). The primary `updateDoc` failing aborts the call through
the outer catch before the guest synchronisation runs. Otherwise the
guest synchronisation always runs: `deleteAllGuests`, then
`createMultipleGuests` when the derived crew list is non-empty; an
error thrown by either is caught and swallowed. Modelled from the spec:
`deleteAllGuests` and `createMultipleGuests` live in the guestService
module (not part of the sources here); per the spec they clear the
subcollection wholesale and write the given list, and a failing call is
modelled as leaving no partial effect. The file-upload helper catches
all its errors internally and the final `getDoc` finds the document the
succeeding `updateDoc` just updated, so neither changes the modelled
observables. -/
def updateFeatureFilm (env : UpdateFilmEnv) (filmData : FeatureFilmData)
    (guestSub : List CrewMemberRecord) :
    FilmServiceResult × List CrewMemberRecord :=
  if env.primaryUpdateOk = false then
    ({ success := false, error := some "Failed to update film in films collection" }, guestSub)
  else
    let crewMembers := extractCrewMembersFromFilmData filmData
    let guestSub2 :=
      if env.deleteGuestsOk = false then guestSub
      else if crewMembers.length > 0 then
        (if env.createGuestsOk then crewMembers else [])
      else []
    ({ success := true, error := none }, guestSub2)

/-- Source `createFeatureFilm`, restricted to the same observables.
The primary `addDoc` failing aborts the call; otherwise
`createMultipleGuests` runs only when the derived crew list is
non-empty, and its errors are caught and swallowed (there is no
delete-all on the create path). Modelled from the spec: the
guestService operations, as for `updateFeatureFilm`. -/
def createFeatureFilm (env : CreateFilmEnv) (filmData : FeatureFilmData)
    (guestSub : List CrewMemberRecord) :
    FilmServiceResult × List CrewMemberRecord :=
  if env.addDocOk = false then
    ({ success := false, error := some "Failed to create film" }, guestSub)
  else
    let crewMembers := extractCrewMembersFromFilmData filmData
    let guestSub2 :=
      if crewMembers.length > 0 then
        (if env.createGuestsOk then crewMembers else guestSub)
      else guestSub
    ({ success := true, error := none }, guestSub2)

/-- Characters kept by the slug regex `[^a-z0-9\s-]` removal step
(after lowercasing): lowercase letters, digits, whitespace and
hyphens. -/
def slugKeepChar (c : Char) : Bool :=
  (decide ('a' ≤ c) && decide (c ≤ 'z')) || c.isDigit || c.isWhitespace || c == '-'

/-- Collapse of runs of hyphens into a single hyphen (the final
hyphen-run replace step of the slug pipeline). -/
def collapseHyphens : List Char → List Char
  | [] => []
  | [c] => [c]
  | c :: d :: cs =>
    if c = '-' ∧ d = '-' then collapseHyphens (d :: cs)
    else c :: collapseHyphens (d :: cs)

/-- Source `generateSlug`: lowercase, drop characters outside
`[a-z0-9\s-]`, turn whitespace into hyphens, collapse hyphen runs,
trim. (The source replaces each maximal whitespace run with one hyphen
before collapsing hyphen runs; replacing the characters one by one
gives the same string after the collapse, since adjacent hyphens merge
either way.) -/
def generateSlug (title : String) : String :=
  let kept := (title.toLower.data.filter slugKeepChar).map
    fun c => if c.isWhitespace then '-' else c
  (String.mk (collapseHyphens kept)).trim

/-- Legacy film record, the loosely typed flat shape
`convertLegacyToEnhanced` consumes: every field can be absent, and the
singly valued and array variants of genre, country and language can
both occur. Timestamps are modelled as `Nat` (Firestore timestamps and
dates are objects, hence always truthy when present). -/
structure LegacyFilmRecord where
  id : Option String
  titleEn : Option String
  title : Option String
  titleTh : Option String
  synopsis : Option String
  director : Option String
  producer : Option String
  mainActors : Option String
  duration : Option Int
  releaseYear : Option Int
  languages : Option (List String)
  language : Option String
  format : Option String
  aspectRatio : Option String
  soundFormat : Option String
  genres : Option (List String)
  genre : Option String
  countries : Option (List String)
  country : Option String
  rating : Option Int
  posterUrl : Option String
  trailerUrl : Option String
  galleryUrls : Option (List String)
  screeningDate1 : Option String
  timeEstimate : Option String
  theatre : Option String
  status : Option String
  featured : Option Bool
  createdAt : Option Nat
  updatedAt : Option Nat
  createdBy : Option String
  updatedBy : Option String
  tags : Option (List String)
  slug : Option String
  metaDescription : Option String
deriving Repr, DecidableEq

/-- Structured file metadata synthesised for a bare legacy URL. -/
structure FileMetadata where
  url : String
  name : String
  size : Nat
  type : String
  uploadedAt : Nat
  uploadedBy : String
deriving Repr, DecidableEq

/-- The `files` block of an enhanced film record. -/
structure FilmFiles where
  poster : Option FileMetadata
  trailer : Option FileMetadata
  stills : Option (List FileMetadata)
deriving Repr, DecidableEq

/-- Cast entry of an enhanced film record. -/
structure CastMember where
  name : String
  role : String
  character : String
deriving Repr, DecidableEq

/-- Crew entry of an enhanced film record. -/
structure CrewEntry where
  name : String
  role : String
  department : String
deriving Repr, DecidableEq

/-- Screening entry of an enhanced film record (`date` keeps the raw
legacy date string handed to `new Date(...)`). -/
structure Screening where
  date : String
  time : String
  venue : String
deriving Repr, DecidableEq

/-- Enhanced film record, the `FeatureFilm` shape produced by
`convertLegacyToEnhanced`. `country` is an `Option` because
`countries[0]` is `undefined` when the legacy `countries` array is
empty. -/
structure FeatureFilm where
  id : Option String
  title : String
  titleTh : Option String
  synopsis : String
  synopsisTh : Option String
  director : String
  directorTh : Option String
  duration : Int
  releaseYear : Int
  language : List String
  subtitles : List String
  format : String
  aspectRatio : String
  soundFormat : String
  genres : List String
  country : Option String
  rating : Option Int
  files : FilmFiles
  cast : List CastMember
  crew : List CrewEntry
  screenings : Option (List Screening)
  status : String
  featured : Bool
  createdAt : Nat
  updatedAt : Nat
  createdBy : String
  updatedBy : String
  tags : List String
  slug : String
  metaDescription : Option String
deriving Repr, DecidableEq

/-- Source `convertLegacyToEnhanced`: pure, total conversion of a
legacy record into the enhanced shape. `now` stands for `new Date()`
and `currentYear` for `new Date().getFullYear()`. -/
def convertLegacyToEnhanced (legacyData : LegacyFilmRecord) (now : Nat)
    (currentYear : Int) : FeatureFilm :=
  { id := legacyData.id
    title := jsOrStr legacyData.titleEn (jsOrStr legacyData.title "Untitled")
    titleTh := legacyData.titleTh
    synopsis := jsOrStr legacyData.synopsis ""
    synopsisTh := none
    director := jsOrStr legacyData.director "Unknown"
    directorTh := none
    duration := jsOrElse legacyData.duration 120
    releaseYear := jsOrElse legacyData.releaseYear currentYear
    language :=
      match legacyData.languages with
      | some ls => ls
      | none =>
        match legacyData.language with
        | some l => if l = "" then ["Unknown"] else [l]
        | none => ["Unknown"]
    subtitles := []
    format := jsOrStr legacyData.format "Digital"
    aspectRatio := jsOrStr legacyData.aspectRatio "16:9"
    soundFormat := jsOrStr legacyData.soundFormat "Stereo"
    genres :=
      match legacyData.genres with
      | some gs => gs
      | none =>
        match legacyData.genre with
        | some g => if g = "" then [] else [g]
        | none => []
    country :=
      match legacyData.countries with
      | some cs => cs.head?
      | none => some (jsOrStr legacyData.country "Unknown")
    rating := legacyData.rating
    files :=
      { poster :=
          match legacyData.posterUrl with
          | some u =>
            if u = "" then none
            else some
              { url := u, name := "poster", size := 0, type := "image/jpeg"
                uploadedAt := legacyData.createdAt.getD now
                uploadedBy := jsOrStr legacyData.createdBy "unknown" }
          | none => none
        trailer :=
          match legacyData.trailerUrl with
          | some u =>
            if u = "" then none
            else some
              { url := u, name := "trailer", size := 0, type := "video/mp4"
                uploadedAt := legacyData.createdAt.getD now
                uploadedBy := jsOrStr legacyData.createdBy "unknown" }
          | none => none
        stills :=
          match legacyData.galleryUrls with
          | some urls =>
            if urls.length > 0 then
              some (urls.enum.map fun p =>
                { url := p.2, name := "still_" ++ toString (p.1 + 1)
                  size := 0, type := "image/jpeg"
                  uploadedAt := legacyData.createdAt.getD now
                  uploadedBy := jsOrStr legacyData.createdBy "unknown" })
            else none
          | none => none }
    cast :=
      match legacyData.mainActors with
      | some s =>
        if s = "" then []
        else (s.splitOn ",").map fun actor =>
          { name := actor.trim, role := "Actor", character := "" }
      | none => []
    crew :=
      { name := jsOrStr legacyData.director "Unknown"
        role := "Director"
        department := "Direction" } ::
      (match legacyData.producer with
       | some p =>
         if p = "" then []
         else [{ name := p, role := "Producer", department := "Production" }]
       | none => [])
    screenings :=
      match legacyData.screeningDate1 with
      | some d =>
        if d = "" then none
        else some [{ date := d
                     time := jsOrStr legacyData.timeEstimate ""
                     venue := jsOrStr legacyData.theatre "TBD" }]
      | none => none
    status := if legacyData.status = some "ตอบรับ / Accepted" then "published" else "draft"
    featured := legacyData.featured.getD false
    createdAt := legacyData.createdAt.getD now
    updatedAt := legacyData.updatedAt.getD now
    createdBy := jsOrStr legacyData.createdBy "unknown"
    updatedBy := jsOrStr legacyData.updatedBy (jsOrStr legacyData.createdBy "unknown")
    tags := legacyData.tags.getD []
    slug := jsOrStr legacyData.slug
      (generateSlug (jsOrStr legacyData.titleEn (jsOrStr legacyData.title "untitled")))
    metaDescription := legacyData.metaDescription }

/-! Concrete records used by counterexamples and witnesses. -/

/-- Scoring input of the spec example, with no `totalScore` supplied. -/
def c1Input : AppScoresInput :=
  { technical := some 8, story := some 7, creativity := some 9
    chiangmai := some 6, overall := some 5, totalScore := none }

/-- The same example input with a consistent caller-supplied
`totalScore`. -/
def c1ConsistentInput : AppScoresInput :=
  { technical := some 8, story := some 7, creativity := some 9
    chiangmai := some 6, overall := some 5, totalScore := some 35 }

/-- Non-deleted general comment, oldest. -/
def c3DocA : CommentDoc :=
  { id := "a", submissionId := "S1", adminId := "ad1", adminName := "Alice"
    adminEmail := "alice@fest.org", content := "first", type := "general"
    scores := none, createdAt := 100, updatedAt := none
    isEdited := false, isDeleted := false }

/-- Non-deleted scoring comment, newest. -/
def c3DocB : CommentDoc :=
  { id := "b", submissionId := "S1", adminId := "ad2", adminName := "Bob"
    adminEmail := "bob@fest.org", content := "scored", type := "scoring"
    scores := some
      { technical := some 8, story := some 7, creativity := some 9
        chiangmai := some 6, humanEffort := some 5, overall := none
        totalScore := some 35 }
    createdAt := 300, updatedAt := none, isEdited := false, isDeleted := false }

/-- Soft-deleted comment between the two. -/
def c3DocC : CommentDoc :=
  { id := "c", submissionId := "S1", adminId := "ad1", adminName := "Alice"
    adminEmail := "alice@fest.org", content := "gone", type := "general"
    scores := none, createdAt := 200, updatedAt := none
    isEdited := false, isDeleted := true }

/-- A fixed collection with two live comments and one soft-deleted. -/
def c3Docs : List CommentDoc := [c3DocA, c3DocB, c3DocC]

/-- Store on which every tier fails. -/
def c4FailStore : CommentsStore :=
  { filteredQuery := .error "index missing"
    simpleQuery := .error "permission denied"
    unfilteredFetch := .error "unavailable" }

/-- A film update payload that derives an empty crew list: an explicit
empty guest list and no director, producer or actors. -/
def c5Input : FeatureFilmData :=
  { guests := some [], director := none, producer := none, mainActors := none }

/-- Guest subcollection contents before the update. -/
def c5PriorGuests : List CrewMemberRecord :=
  [{ name := "Old Guest", contact := "", role := "Director", otherRole := none, remarks := "" }]

/-- Environment in which the primary write succeeds but the
`deleteAllGuests` sweep fails (and is swallowed). -/
def c5Env : UpdateFilmEnv :=
  { primaryUpdateOk := true, deleteGuestsOk := false, createGuestsOk := true }

/-- Scoring comment document before its first edit: no edit history. -/
def c6Start : StoredComment :=
  { content := "orig", scores := some
      { technical := some 1, story := some 2, creativity := some 3
        chiangmai := some 4, humanEffort := some 5, overall := none
        totalScore := some 15 }
    updatedAt := none, isEdited := false, editHistory := [] }

/-- First edit applied to `c6Start`. -/
def c6U1 : ScoreUpdate :=
  { scores :=
      { technical := some 6, story := some 6, creativity := some 6
        chiangmai := some 6, overall := some 6, totalScore := some 30 }
    comments := "first edit", editedBy := "judge1", now := 10 }

/-- Second edit. -/
def c6U2 : ScoreUpdate :=
  { scores :=
      { technical := some 7, story := some 7, creativity := some 7
        chiangmai := some 7, overall := some 7, totalScore := some 35 }
    comments := "second edit", editedBy := "judge2", now := 20 }

/-- Legacy record with every field absent. -/
def emptyLegacy : LegacyFilmRecord :=
  { id := none, titleEn := none, title := none, titleTh := none
    synopsis := none, director := none, producer := none, mainActors := none
    duration := none, releaseYear := none, languages := none, language := none
    format := none, aspectRatio := none, soundFormat := none, genres := none
    genre := none, countries := none, country := none, rating := none
    posterUrl := none, trailerUrl := none, galleryUrls := none
    screeningDate1 := none, timeEstimate := none, theatre := none
    status := none, featured := none, createdAt := none, updatedAt := none
    createdBy := none, updatedBy := none, tags := none, slug := none
    metaDescription := none }

/-- Legacy record with a blank director and a producer. -/
def c7Legacy : LegacyFilmRecord :=
  { emptyLegacy with director := some "", producer := some "Jane Prod" }

/-- Legacy record carrying empty array variants for countries and
languages. -/
def c8Legacy : LegacyFilmRecord :=
  { emptyLegacy with countries := some [], languages := some [] }

/-- Legacy record carrying populated array variants next to singular
variants. -/
def c8PreferLegacy : LegacyFilmRecord :=
  { emptyLegacy with
      genres := some ["Drama"], genre := some "Comedy"
      countries := some ["France", "Japan"], country := some "Iceland"
      languages := some ["fr"], language := some "is" }

/-! Helper lemmas. -/

theorem jsOrElse_none (d : Int) : jsOrElse none d = d := rfl

theorem jsOrElse_some_zero (t : Int) : jsOrElse (some t) 0 = t := by
  by_cases h : t = 0 <;> simp [jsOrElse, h]

theorem jsOrElse_eq_overallReadRule (hE ov : Option Int) :
    jsOrElse hE (jsOrElse ov 0) = overallReadRule hE ov := by
  cases hE with
  | none =>
    cases ov with
    | none => rfl
    | some w => by_cases h : w = 0 <;> simp [jsOrElse, overallReadRule, overallReadFallback, h]
  | some v =>
    cases ov with
    | none => by_cases h : v = 0 <;> simp [jsOrElse, overallReadRule, overallReadFallback, h]
    | some w =>
      by_cases h : v = 0 <;> by_cases h2 : w = 0 <;>
        simp [jsOrElse, overallReadRule, overallReadFallback, h, h2]

/-! Claim theorems. -/

/-- C1, counterexample: the spec example input `{technical: 8, story:
7, creativity: 9, chiangmai: 6, overall: 5}` with no `totalScore`
supplied persists with `totalScore = 0`, not `35`, and violates the
component-sum invariant: the write path copies `appScores.totalScore ||
0` instead of recomputing the sum. -/
theorem c1_recompute_counterexample :
    (mapAppScoresToDatabase c1Input).totalScore = 0
  ∧ (addScoringComment "S1" "admin1" "Admin One" "admin@fest.org" c1Input none "doc1" 1000).scores
      = some
        { technical := some 8, story := some 7, creativity := some 9
          chiangmai := some 6, humanEffort := some 5, overall := none
          totalScore := some 0 }
  ∧ (mapAppScoresToDatabase c1Input).totalScore ≠
      (mapAppScoresToDatabase c1Input).technical + (mapAppScoresToDatabase c1Input).story +
      (mapAppScoresToDatabase c1Input).creativity + (mapAppScoresToDatabase c1Input).chiangmai +
      (mapAppScoresToDatabase c1Input).humanEffort
  ∧ (mapAppScoresToDatabase c1Input).totalScore ≠ 35 := by
  refine ⟨rfl, ?_, by decide, by decide⟩
  rfl

/-- C1, amended: both scoring write paths persist exactly
`mapAppScoresToDatabase` of the caller scores; the persisted
`totalScore` is the caller-supplied `totalScore` (defaulting to 0 when
it is absent or zero) and is not recomputed from the components; the
sum invariant therefore holds exactly when the caller supplies a
consistent `totalScore`. -/
theorem c1_totalScore_trusted (sid aid aname amail : String)
    (s : AppScoresInput) (content : Option String) (docId : String) (now : Nat)
    (st : StoredComment) (comments editedBy : String) :
    (addScoringComment sid aid aname amail s content docId now).scores
        = some (mapAppScoresToDatabase s).toRaw
  ∧ (updateScoringComment (some st) s comments editedBy now).map StoredComment.scores
        = .ok (some (mapAppScoresToDatabase s).toRaw)
  ∧ (mapAppScoresToDatabase s).totalScore = jsOrElse s.totalScore 0
  ∧ (s.totalScore = none → (mapAppScoresToDatabase s).totalScore = 0)
  ∧ (∀ t : Int, s.totalScore = some t → (mapAppScoresToDatabase s).totalScore = t)
  ∧ (s.totalScore = some (jsOrElse s.technical 0 + jsOrElse s.story 0 +
        jsOrElse s.creativity 0 + jsOrElse s.chiangmai 0 + jsOrElse s.overall 0) →
      (mapAppScoresToDatabase s).totalScore =
        (mapAppScoresToDatabase s).technical + (mapAppScoresToDatabase s).story +
        (mapAppScoresToDatabase s).creativity + (mapAppScoresToDatabase s).chiangmai +
        (mapAppScoresToDatabase s).humanEffort) := by
  refine ⟨rfl, by simp [updateScoringComment, Except.map], rfl, ?_, ?_, ?_⟩
  · intro h
    simp [mapAppScoresToDatabase, h, jsOrElse]
  · intro t h
    simp [mapAppScoresToDatabase, h, jsOrElse_some_zero]
  · intro h
    simp [mapAppScoresToDatabase, h, jsOrElse_some_zero]

/-- C1 witness for the amended theorem: with the consistent caller
input the persisted record satisfies the component-sum invariant. -/
theorem c1_totalScore_trusted_witness :
    (mapAppScoresToDatabase c1ConsistentInput).totalScore =
      (mapAppScoresToDatabase c1ConsistentInput).technical +
      (mapAppScoresToDatabase c1ConsistentInput).story +
      (mapAppScoresToDatabase c1ConsistentInput).creativity +
      (mapAppScoresToDatabase c1ConsistentInput).chiangmai +
      (mapAppScoresToDatabase c1ConsistentInput).humanEffort := by
  have h := c1_totalScore_trusted "S1" "admin1" "Admin One" "admin@fest.org"
    c1ConsistentInput none "doc1" 1000
    { content := "", scores := none, updatedAt := none, isEdited := false, editHistory := [] }
    "" "judge1"
  exact h.2.2.2.2.2 (by decide)

/-- C2: for a fully populated application score record, mapping to the
persisted shape (with the `overall` to `humanEffort` renaming) and
reading it back is the identity. -/
theorem c2_score_mapping_roundtrip (x : AppScoresView) :
    mapDatabaseScoresToApp (some ((mapAppScoresToDatabase x.toInput).toRaw)) = some x := by
  cases x
  simp [mapDatabaseScoresToApp, mapAppScoresToDatabase, AppScoresView.toInput,
    DbScoresWrite.toRaw, jsOrElse_some_zero, jsOrElse_none]

/-- C10: for every persisted score object, the application `overall`
produced by `mapDatabaseScoresToApp` is the stored `humanEffort` when
present and non-zero, else the stray application-named `overall` field
when present and non-zero, else 0; in particular a stored `humanEffort`
of 0 is overridden by a non-zero stray `overall`. -/
theorem c10_overall_read_rule (d : DbScoresRaw) :
    (mapDatabaseScoresToApp (some d)).map AppScoresView.overall =
      some (overallReadRule d.humanEffort d.overall) := by
  simp [mapDatabaseScoresToApp, jsOrElse_eq_overallReadRule]

/-- C4: when all three query tiers fail, `getComments` returns the
empty list; the store failure is not propagated (the function returns a
plain list, there is no error channel to the caller). -/
theorem c4_total_failure_returns_empty (sid : String) (store : CommentsStore)
    (e1 e2 e3 : String)
    (h1 : store.filteredQuery = .error e1)
    (h2 : store.simpleQuery = .error e2)
    (h3 : store.unfilteredFetch = .error e3) :
    getComments sid store = [] := by
  simp [getComments, h1, h2, h3]

/-- C4 witness: a store failing on every tier yields the empty list for
a concrete submission. -/
theorem c4_total_failure_returns_empty_witness :
    getComments "S1" c4FailStore = [] :=
  c4_total_failure_returns_empty "S1" c4FailStore
    "index missing" "permission denied" "unavailable" rfl rfl rfl

/-! Lemmas about the stable descending sort. -/

theorem insertDescBy_perm {α : Type} (key : α → Nat) (x : α) :
    ∀ l : List α, List.Perm (insertDescBy key x l) (x :: l)
  | [] => by simp [insertDescBy]
  | y :: ys => by
    simp only [insertDescBy]
    split
    · exact List.Perm.refl _
    · exact (((insertDescBy_perm key x ys).cons y).trans (List.Perm.swap x y ys))

theorem sortDescBy_perm {α : Type} (key : α → Nat) :
    ∀ l : List α, List.Perm (sortDescBy key l) l
  | [] => List.Perm.refl _
  | x :: xs => by
    simp only [sortDescBy]
    exact (insertDescBy_perm key x _).trans ((sortDescBy_perm key xs).cons x)

theorem insertDescBy_of_le {α : Type} (key : α → Nat) (x : α) (l : List α)
    (h : ∀ a ∈ l, key a ≤ key x) : insertDescBy key x l = x :: l := by
  cases l with
  | nil => rfl
  | cons y ys => simp [insertDescBy, h y (List.mem_cons_self y ys)]

theorem pairwise_insertDescBy {α : Type} (key : α → Nat) (x : α) (l : List α)
    (hl : List.Pairwise (fun a b => key b ≤ key a) l) :
    List.Pairwise (fun a b => key b ≤ key a) (insertDescBy key x l) := by
  induction l with
  | nil => simp [insertDescBy]
  | cons y ys ih =>
    rcases List.pairwise_cons.mp hl with ⟨hy, hys⟩
    by_cases h : key y ≤ key x
    · simp only [insertDescBy, if_pos h]
      refine List.pairwise_cons.mpr ⟨?_, hl⟩
      intro a ha
      rcases List.mem_cons.mp ha with rfl | ha
      · exact h
      · exact le_trans (hy a ha) h
    · simp only [insertDescBy, if_neg h]
      refine List.pairwise_cons.mpr ⟨?_, ih hys⟩
      intro a ha
      rcases List.mem_cons.mp ((insertDescBy_perm key x ys).mem_iff.mp ha) with rfl | ha2
      · exact le_of_lt (lt_of_not_le h)
      · exact hy a ha2

theorem pairwise_sortDescBy {α : Type} (key : α → Nat) :
    ∀ l : List α, List.Pairwise (fun a b => key b ≤ key a) (sortDescBy key l)
  | [] => List.Pairwise.nil
  | x :: xs => pairwise_insertDescBy key x _ (pairwise_sortDescBy key xs)

theorem filterMap_insertDescBy {α β : Type} (key : α → Nat) (keyb : β → Nat)
    (F : α → Option β) (hF : ∀ a b, F a = some b → keyb b = key a)
    (x : α) (l : List α)
    (hl : List.Pairwise (fun a b => key b ≤ key a) l) :
    (insertDescBy key x l).filterMap F =
      match F x with
      | some y => insertDescBy keyb y (l.filterMap F)
      | none => l.filterMap F := by
  induction l with
  | nil => cases hFx : F x <;> simp [insertDescBy, List.filterMap_cons, hFx]
  | cons y ys ih =>
    rcases List.pairwise_cons.mp hl with ⟨hy, hys⟩
    by_cases h : key y ≤ key x
    · simp only [insertDescBy, if_pos h]
      cases hFx : F x with
      | none => simp [List.filterMap_cons, hFx]
      | some b =>
        rw [List.filterMap_cons, hFx]
        have hfront : insertDescBy keyb b ((y :: ys).filterMap F) =
            b :: (y :: ys).filterMap F := by
          refine insertDescBy_of_le keyb b _ ?_
          intro c hc
          rcases List.mem_filterMap.mp hc with ⟨a, ha, hFa⟩
          have hak : key a ≤ key y := by
            rcases List.mem_cons.mp ha with rfl | h2
            · exact le_refl _
            · exact hy a h2
          calc keyb c = key a := hF a c hFa
            _ ≤ key y := hak
            _ ≤ key x := h
            _ = keyb b := (hF x b hFx).symm
        simp [hfront]
    · simp only [insertDescBy, if_neg h]
      rw [List.filterMap_cons]
      cases hFy : F y with
      | none =>
        rw [ih hys]
        cases hFx : F x with
        | none => simp [List.filterMap_cons, hFy]
        | some b => simp [List.filterMap_cons, hFy]
      | some c =>
        rw [ih hys]
        cases hFx : F x with
        | none => simp [List.filterMap_cons, hFy]
        | some b =>
          have hcb : ¬ keyb c ≤ keyb b := by
            rw [hF y c hFy, hF x b hFx]
            exact h
          simp [List.filterMap_cons, hFy, insertDescBy, hcb]

theorem filterMap_sortDescBy {α β : Type} (key : α → Nat) (keyb : β → Nat)
    (F : α → Option β) (hF : ∀ a b, F a = some b → keyb b = key a) :
    ∀ l : List α, (sortDescBy key l).filterMap F = sortDescBy keyb (l.filterMap F)
  | [] => by simp [sortDescBy]
  | x :: xs => by
    simp only [sortDescBy]
    rw [filterMap_insertDescBy key keyb F hF x _ (pairwise_sortDescBy key _),
      filterMap_sortDescBy key keyb F hF xs]
    cases hFx : F x with
    | none => simp [List.filterMap_cons, hFx, sortDescBy]
    | some b => simp [List.filterMap_cons, hFx, sortDescBy]

/-! Lemmas about the `getComments` tiers. -/

theorem docFilterFun_key (strategy : QueryStrategy) (sid : String) (d : CommentDoc)
    (c : ShortFilmComment) (h : docFilterFun strategy sid d = some c) :
    commentKey c = docKey d := by
  unfold docFilterFun at h
  split at h
  · exact absurd h (by simp)
  · split at h
    · exact absurd h (by simp)
    · cases Option.some.inj h
      rfl

theorem docFilterFun_filtered_eq_simple (sid : String) :
    docFilterFun QueryStrategy.filtered sid = docFilterFun QueryStrategy.simple sid := by
  funext d
  simp [docFilterFun]

theorem filterMap_unfiltered_eq_filter (sid : String) :
    ∀ docs : List CommentDoc,
      docs.filterMap (docFilterFun QueryStrategy.unfiltered sid) =
        (docs.filter notDeleted).filterMap (docFilterFun QueryStrategy.simple sid)
  | [] => rfl
  | d :: ds => by
    cases hd : d.isDeleted with
    | true =>
      simp [List.filterMap_cons, List.filter_cons, notDeleted, hd, docFilterFun,
        filterMap_unfiltered_eq_filter sid ds]
    | false =>
      simp [List.filterMap_cons, List.filter_cons, notDeleted, hd, docFilterFun,
        filterMap_unfiltered_eq_filter sid ds]

theorem filterMap_eq_map_of_wf (sid : String) :
    ∀ l : List CommentDoc,
      (∀ d ∈ l, d.adminId ≠ "" ∧ d.adminName ≠ "" ∧ d.type ≠ "") →
      l.filterMap (docFilterFun QueryStrategy.simple sid) = l.map (docToComment sid)
  | [], _ => rfl
  | d :: ds, h => by
    have hd := h d (List.mem_cons_self d ds)
    have hds := fun a ha => h a (List.mem_cons_of_mem d ha)
    simp [List.filterMap_cons, docFilterFun, hd.1, hd.2.1, hd.2.2,
      filterMap_eq_map_of_wf sid ds hds]

theorem processSnapshot_eq (strategy : QueryStrategy) (sid : String)
    (docs : List CommentDoc) :
    processSnapshot strategy sid docs =
      if strategy = QueryStrategy.unfiltered ∨ strategy = QueryStrategy.simple then
        sortDescBy commentKey (docs.filterMap (docFilterFun strategy sid))
      else docs.filterMap (docFilterFun strategy sid) := by
  cases docs with
  | nil => simp [processSnapshot, sortDescBy]
  | cons d ds => rfl

theorem getComments_compositeStore (sid : String) (docs : List CommentDoc)
    (h : sid ≠ "") :
    getComments sid (compositeStore docs) =
      (sortDescBy docKey (docs.filter notDeleted)).filterMap
        (docFilterFun QueryStrategy.filtered sid) := by
  simp [getComments, compositeStore, h, processSnapshot_eq]

theorem getComments_filterOnlyStore (sid : String) (docs : List CommentDoc)
    (h : sid ≠ "") :
    getComments sid (filterOnlyStore docs) =
      sortDescBy commentKey
        ((docs.filter notDeleted).filterMap (docFilterFun QueryStrategy.simple sid)) := by
  simp [getComments, filterOnlyStore, h, processSnapshot_eq]

theorem getComments_unfilteredOnlyStore (sid : String) (docs : List CommentDoc)
    (h : sid ≠ "") :
    getComments sid (unfilteredOnlyStore docs) =
      sortDescBy commentKey
        (docs.filterMap (docFilterFun QueryStrategy.unfiltered sid)) := by
  simp [getComments, unfilteredOnlyStore, h, processSnapshot_eq]

/-- C3: for one fixed collection of comment documents, `getComments`
returns the same list on a store that accepts the composite query, a
store that accepts only the simple filter query, and a store that
accepts only unfiltered fetches; the result is sorted descending by
`createdAt` and is (a permutation of, hence contains exactly) the
non-deleted documents converted to application comments. The
well-formedness hypothesis says every document carries `adminId`,
`adminName` and `type`, which every document written by this service
does. -/
theorem c3_fallback_equivalence (sid : String) (docs : List CommentDoc)
    (hsid : sid ≠ "")
    (hwf : ∀ d ∈ docs, d.adminId ≠ "" ∧ d.adminName ≠ "" ∧ d.type ≠ "") :
    getComments sid (compositeStore docs) = getComments sid (filterOnlyStore docs)
  ∧ getComments sid (filterOnlyStore docs) = getComments sid (unfilteredOnlyStore docs)
  ∧ List.Pairwise (fun a b => b.createdAt ≤ a.createdAt)
      (getComments sid (compositeStore docs))
  ∧ List.Perm (getComments sid (compositeStore docs))
      ((docs.filter notDeleted).map (docToComment sid)) := by
  have h1 : getComments sid (compositeStore docs) = getComments sid (filterOnlyStore docs) := by
    rw [getComments_compositeStore sid docs hsid, getComments_filterOnlyStore sid docs hsid,
      filterMap_sortDescBy docKey commentKey _ (docFilterFun_key QueryStrategy.filtered sid),
      docFilterFun_filtered_eq_simple]
  have h2 : getComments sid (filterOnlyStore docs) =
      getComments sid (unfilteredOnlyStore docs) := by
    rw [getComments_filterOnlyStore sid docs hsid,
      getComments_unfilteredOnlyStore sid docs hsid,
      filterMap_unfiltered_eq_filter sid docs]
  have h3 : getComments sid (filterOnlyStore docs) =
      sortDescBy commentKey ((docs.filter notDeleted).map (docToComment sid)) := by
    rw [getComments_filterOnlyStore sid docs hsid,
      filterMap_eq_map_of_wf sid _ (fun d hd => hwf d (List.mem_of_mem_filter hd))]
  refine ⟨h1, h2, ?_, ?_⟩
  · rw [h1, h3]
    exact pairwise_sortDescBy commentKey _
  · rw [h1, h3]
    exact sortDescBy_perm commentKey _

/-- C3 witness: on the concrete three-document collection (one
soft-deleted) the three stores give identical results. -/
theorem c3_fallback_equivalence_witness :
    getComments "S1" (compositeStore c3Docs) = getComments "S1" (filterOnlyStore c3Docs)
  ∧ getComments "S1" (filterOnlyStore c3Docs) = getComments "S1" (unfilteredOnlyStore c3Docs) := by
  have h := c3_fallback_equivalence "S1" c3Docs (by decide) (by decide)
  exact ⟨h.1, h.2.1⟩

/-- C5, counterexample: a call can return success while the guest
subcollection keeps its old entries, because a failing
`deleteAllGuests` is caught and swallowed; with prior guests present
and an input deriving an empty crew list, the call succeeds but the
subcollection is neither cleared nor equal to the derived (empty)
list. -/
theorem c5_stale_guests_counterexample :
    (updateFeatureFilm c5Env c5Input c5PriorGuests).1.success = true
  ∧ extractCrewMembersFromFilmData c5Input = []
  ∧ (updateFeatureFilm c5Env c5Input c5PriorGuests).2 = c5PriorGuests
  ∧ (updateFeatureFilm c5Env c5Input c5PriorGuests).2 ≠ [] := by
  decide

/-- C5, amended: after an `updateFeatureFilm` call in which the primary
write and both guest-subcollection operations succeed, the guest
subcollection equals exactly the crew list derived from the input (the
explicit guest list when non-empty, otherwise the
director/producer/mainActors extraction), with no prior entry
surviving; an input deriving an empty crew list leaves it empty. -/
theorem c5_guest_resync (env : UpdateFilmEnv) (fd : FeatureFilmData)
    (st : List CrewMemberRecord)
    (h1 : env.primaryUpdateOk = true) (h2 : env.deleteGuestsOk = true)
    (h3 : env.createGuestsOk = true) :
    (updateFeatureFilm env fd st).1.success = true
  ∧ (updateFeatureFilm env fd st).2 = extractCrewMembersFromFilmData fd := by
  have hcrew : (if (extractCrewMembersFromFilmData fd).length > 0
      then extractCrewMembersFromFilmData fd
      else ([] : List CrewMemberRecord)) = extractCrewMembersFromFilmData fd := by
    split
    · rfl
    · next hlen => exact (List.length_eq_zero.mp (Nat.eq_zero_of_not_pos hlen)).symm
  constructor
  · simp [updateFeatureFilm, h1]
  · simp [updateFeatureFilm, h1, h2, h3, hcrew]

/-- C5 witness: with all store operations succeeding, the update with
an empty derived crew list clears the subcollection. -/
theorem c5_guest_resync_witness :
    (updateFeatureFilm
        { primaryUpdateOk := true, deleteGuestsOk := true, createGuestsOk := true }
        c5Input c5PriorGuests).2 = extractCrewMembersFromFilmData c5Input :=
  (c5_guest_resync _ c5Input c5PriorGuests rfl rfl rfl).2

/-- C9: the result of a film create/update does not depend on whether
the guest-subcollection synchronisation succeeds (a succeeding primary
write yields `success = true` whatever the guest operations do), and a
failing primary write yields `success = false` with an error and does
not touch the guest subcollection. -/
theorem c9_primary_vs_subcollection (uenv : UpdateFilmEnv) (ufd : FeatureFilmData)
    (ust : List CrewMemberRecord) (cenv : CreateFilmEnv) (cfd : FeatureFilmData)
    (cst : List CrewMemberRecord) :
    (updateFeatureFilm uenv ufd ust).1 =
      (updateFeatureFilm { uenv with deleteGuestsOk := true, createGuestsOk := true } ufd ust).1
  ∧ (uenv.primaryUpdateOk = true →
      (updateFeatureFilm uenv ufd ust).1 = { success := true, error := none })
  ∧ (uenv.primaryUpdateOk = false →
      (updateFeatureFilm uenv ufd ust).1.success = false
      ∧ ((updateFeatureFilm uenv ufd ust).1.error).isSome = true
      ∧ (updateFeatureFilm uenv ufd ust).2 = ust)
  ∧ (createFeatureFilm cenv cfd cst).1 =
      (createFeatureFilm { cenv with createGuestsOk := true } cfd cst).1
  ∧ (cenv.addDocOk = true →
      (createFeatureFilm cenv cfd cst).1 = { success := true, error := none })
  ∧ (cenv.addDocOk = false →
      (createFeatureFilm cenv cfd cst).1.success = false
      ∧ ((createFeatureFilm cenv cfd cst).1.error).isSome = true
      ∧ (createFeatureFilm cenv cfd cst).2 = cst) := by
  refine ⟨?_, ?_, ?_, ?_, ?_, ?_⟩
  · cases hp : uenv.primaryUpdateOk <;> simp [updateFeatureFilm, hp]
  · intro h
    simp [updateFeatureFilm, h]
  · intro h
    simp [updateFeatureFilm, h]
  · cases hp : cenv.addDocOk <;> simp [createFeatureFilm, hp]
  · intro h
    simp [createFeatureFilm, h]
  · intro h
    simp [createFeatureFilm, h]

/-- C9 witness: with both guest operations failing but the primary
write succeeding, the call still reports success. -/
theorem c9_primary_vs_subcollection_witness :
    (updateFeatureFilm
        { primaryUpdateOk := true, deleteGuestsOk := false, createGuestsOk := false }
        c5Input c5PriorGuests).1 = { success := true, error := none } :=
  (c9_primary_vs_subcollection _ c5Input c5PriorGuests
    { addDocOk := true, createGuestsOk := true } c5Input []).2.1 rfl

/-! Lemmas about successive scoring-comment edits. -/

theorem applyScoreUpdate_eq (st : StoredComment) (u : ScoreUpdate) :
    applyScoreUpdate st u =
      { content := if u.comments.trim = "" then scoreBreakdownText u.scores else u.comments.trim
        scores := some (mapAppScoresToDatabase u.scores).toRaw
        updatedAt := some u.now
        isEdited := true
        editHistory := st.editHistory ++
          [{ editedAt := u.now, previousContent := st.content
             previousScores := st.scores, editedBy := u.editedBy }] } := rfl

theorem applyScoreUpdates_append :
    ∀ (as : List ScoreUpdate) (st : StoredComment) (bs : List ScoreUpdate),
      applyScoreUpdates st (as ++ bs) = applyScoreUpdates (applyScoreUpdates st as) bs
  | [], _, _ => rfl
  | u :: us, st, bs => by
    simp only [List.cons_append, applyScoreUpdates]
    exact applyScoreUpdates_append us (applyScoreUpdate st u) bs

theorem applyScoreUpdates_editHistory :
    ∀ (us : List ScoreUpdate) (st : StoredComment),
      (applyScoreUpdates st us).editHistory = st.editHistory ++ editTrace st us
  | [], st => by simp [applyScoreUpdates, editTrace]
  | u :: us, st => by
    simp only [applyScoreUpdates, editTrace]
    rw [applyScoreUpdates_editHistory us (applyScoreUpdate st u), applyScoreUpdate_eq]
    simp

theorem editTrace_length :
    ∀ (us : List ScoreUpdate) (st : StoredComment), (editTrace st us).length = us.length
  | [], _ => rfl
  | u :: us, st => by simp [editTrace, editTrace_length us]

theorem editTrace_getElem :
    ∀ (us : List ScoreUpdate) (st : StoredComment) (i : Nat) (u : ScoreUpdate),
      us[i]? = some u →
      (editTrace st us)[i]? = some
        { editedAt := u.now
          previousContent := (applyScoreUpdates st (us.take i)).content
          previousScores := (applyScoreUpdates st (us.take i)).scores
          editedBy := u.editedBy }
  | [], _, i, u, h => by simp at h
  | v :: us, st, 0, u, h => by
    simp only [List.getElem?_cons_zero, Option.some.injEq] at h
    subst h
    simp [editTrace, applyScoreUpdates]
  | v :: us, st, i + 1, u, h => by
    simp only [List.getElem?_cons_succ] at h
    simp only [editTrace, List.getElem?_cons_succ, List.take_succ_cons, applyScoreUpdates]
    exact editTrace_getElem us (applyScoreUpdate st v) i u h

/-- C6: starting from a comment with no edit history, after a sequence
of successful `updateScoringComment` calls the stored `editHistory` has
exactly one entry per call, every earlier state of the history is a
prefix of the final one (entries are only appended), and entry `i`
carries the content and persisted scores the document held immediately
before call `i + 1`, together with the editor of that call. -/
theorem c6_edit_history_append_only (st0 : StoredComment)
    (h0 : st0.editHistory = []) (us : List ScoreUpdate) :
    (applyScoreUpdates st0 us).editHistory.length = us.length
  ∧ (∀ i : Nat, ∃ suffix, (applyScoreUpdates st0 us).editHistory =
      (applyScoreUpdates st0 (us.take i)).editHistory ++ suffix)
  ∧ (∀ (i : Nat) (u : ScoreUpdate), us[i]? = some u →
      (applyScoreUpdates st0 us).editHistory[i]? = some
        { editedAt := u.now
          previousContent := (applyScoreUpdates st0 (us.take i)).content
          previousScores := (applyScoreUpdates st0 (us.take i)).scores
          editedBy := u.editedBy }) := by
  refine ⟨?_, ?_, ?_⟩
  · rw [applyScoreUpdates_editHistory, h0]
    simp [editTrace_length]
  · intro i
    refine ⟨editTrace (applyScoreUpdates st0 (us.take i)) (us.drop i), ?_⟩
    conv_lhs => rw [← List.take_append_drop i us]
    rw [applyScoreUpdates_append, applyScoreUpdates_editHistory]
  · intro i u h
    rw [applyScoreUpdates_editHistory, h0, List.nil_append]
    exact editTrace_getElem us st0 i u h

/-- C6 witness: two successive edits on a fresh comment leave exactly
two history entries. -/
theorem c6_edit_history_append_only_witness :
    (applyScoreUpdates c6Start [c6U1, c6U2]).editHistory.length = 2 :=
  (c6_edit_history_append_only c6Start rfl [c6U1, c6U2]).1

/-- C7: `convertLegacyToEnhanced` is total (it is a plain function, so
it never throws) and its crew list is never empty: the head is always a
Director entry whose name is the legacy `director` when that is a
non-empty string and `Unknown` otherwise, and a Producer entry is
present exactly when the legacy record carries a (truthy, that is
non-empty) producer. -/
theorem c7_crew_always_director (L : LegacyFilmRecord) (now : Nat) (year : Int) :
    (convertLegacyToEnhanced L now year).crew ≠ []
  ∧ (∀ d, L.director = some d → d ≠ "" →
      (convertLegacyToEnhanced L now year).crew.head? =
        some { name := d, role := "Director", department := "Direction" })
  ∧ ((L.director = none ∨ L.director = some "") →
      (convertLegacyToEnhanced L now year).crew.head? =
        some { name := "Unknown", role := "Director", department := "Direction" })
  ∧ (∀ p, L.producer = some p → p ≠ "" →
      { name := p, role := "Producer", department := "Production" } ∈
        (convertLegacyToEnhanced L now year).crew)
  ∧ ((L.producer = none ∨ L.producer = some "") →
      ∀ c ∈ (convertLegacyToEnhanced L now year).crew, c.role ≠ "Producer") := by
  refine ⟨?_, ?_, ?_, ?_, ?_⟩
  · simp [convertLegacyToEnhanced]
  · intro d hd hne
    simp [convertLegacyToEnhanced, jsOrStr, hd, hne]
  · rintro (hd | hd) <;> simp [convertLegacyToEnhanced, jsOrStr, hd]
  · intro p hp hne
    simp [convertLegacyToEnhanced, hp, hne]
  · rintro (hp | hp) <;>
      · intro c hc
        simp [convertLegacyToEnhanced, hp] at hc
        subst hc
        show ("Director" : String) ≠ "Producer"
        decide

/-- C7 witness: a blank director becomes the `Unknown` Director entry
and a supplied producer appears as a Producer entry. -/
theorem c7_crew_always_director_witness :
    (convertLegacyToEnhanced c7Legacy 0 2025).crew.head? =
      some { name := "Unknown", role := "Director", department := "Direction" }
  ∧ { name := "Jane Prod", role := "Producer", department := "Production" } ∈
      (convertLegacyToEnhanced c7Legacy 0 2025).crew := by
  have h := c7_crew_always_director c7Legacy 0 2025
  exact ⟨h.2.2.1 (Or.inr rfl), h.2.2.2.1 "Jane Prod" rfl (by decide)⟩

/-- C8, counterexample: a legacy record whose `countries` and
`languages` fields are present but empty arrays converts to an enhanced
record whose `country` is `undefined` (not a string, not `Unknown`) and
whose `language` is the empty array, refuting that `country` is always
a string and `language` always non-empty. -/
theorem c8_empty_array_counterexample :
    (convertLegacyToEnhanced c8Legacy 0 2025).country = none
  ∧ (convertLegacyToEnhanced c8Legacy 0 2025).language = [] :=
  ⟨rfl, rfl⟩

/-- C8, amended: the conversion prefers the array variant over the
singular variant (`genres` over `genre`, `countries[0]` over `country`,
`languages` over `language`) and substitutes the documented default
only when the array variant is absent; when the array variant is
present but empty, `country` becomes `undefined` and `language` the
empty array. `genres` is always a string array (by construction). -/
theorem c8_field_coalescing (L : LegacyFilmRecord) (now : Nat) (year : Int) :
    (∀ gs, L.genres = some gs → (convertLegacyToEnhanced L now year).genres = gs)
  ∧ (L.genres = none → ∀ g, L.genre = some g → g ≠ "" →
      (convertLegacyToEnhanced L now year).genres = [g])
  ∧ (L.genres = none → (L.genre = none ∨ L.genre = some "") →
      (convertLegacyToEnhanced L now year).genres = [])
  ∧ (∀ cs, L.countries = some cs → (convertLegacyToEnhanced L now year).country = cs.head?)
  ∧ (L.countries = none → ∀ c, L.country = some c → c ≠ "" →
      (convertLegacyToEnhanced L now year).country = some c)
  ∧ (L.countries = none → (L.country = none ∨ L.country = some "") →
      (convertLegacyToEnhanced L now year).country = some "Unknown")
  ∧ (∀ ls, L.languages = some ls → (convertLegacyToEnhanced L now year).language = ls)
  ∧ (L.languages = none → ∀ l, L.language = some l → l ≠ "" →
      (convertLegacyToEnhanced L now year).language = [l])
  ∧ (L.languages = none → (L.language = none ∨ L.language = some "") →
      (convertLegacyToEnhanced L now year).language = ["Unknown"]) := by
  refine ⟨?_, ?_, ?_, ?_, ?_, ?_, ?_, ?_, ?_⟩
  · intro gs h
    simp [convertLegacyToEnhanced, h]
  · intro h g hg hne
    simp [convertLegacyToEnhanced, h, hg, hne]
  · intro h hg
    rcases hg with hg | hg <;> simp [convertLegacyToEnhanced, h, hg]
  · intro cs h
    simp [convertLegacyToEnhanced, h]
  · intro h c hc hne
    simp [convertLegacyToEnhanced, jsOrStr, h, hc, hne]
  · intro h hc
    rcases hc with hc | hc <;> simp [convertLegacyToEnhanced, jsOrStr, h, hc]
  · intro ls h
    simp [convertLegacyToEnhanced, h]
  · intro h l hl hne
    simp [convertLegacyToEnhanced, h, hl, hne]
  · intro h hl
    rcases hl with hl | hl <;> simp [convertLegacyToEnhanced, h, hl]

/-- C8 witness: with both variants populated, the array variant wins
for genres, country and language. -/
theorem c8_field_coalescing_witness :
    (convertLegacyToEnhanced c8PreferLegacy 0 2025).genres = ["Drama"]
  ∧ (convertLegacyToEnhanced c8PreferLegacy 0 2025).country = some "France"
  ∧ (convertLegacyToEnhanced c8PreferLegacy 0 2025).language = ["fr"] := by
  have h := c8_field_coalescing c8PreferLegacy 0 2025
  refine ⟨h.1 ["Drama"] rfl, ?_, h.2.2.2.2.2.2.1 ["fr"] rfl⟩
  have h4 := h.2.2.2.1 ["France", "Japan"] rfl
  simpa using h4

end Cifan
